import Mathlib

/-!
Verification of SymMediaStreamer's core protocol logic against its
specification.  The definitions below are shallow embeddings of the Python
source in `src/dlna_streamer/`:

* `http_server.py` (`RangeRequestHandler.send_head`, `copyfile`, `_sendfile`,
  `serve_directory`) — HTTP byte-range handling,
* `ssdp.py` (`discover`, `_parse_ssdp_response`) — SSDP discovery and
  deduplication,
* `avtransport.py` / `rendering_control.py` — SOAP body construction and the
  `set_uri_with_metadata` fallback,
* `gui.py` (`PlaybackSession.start`/`stop`) — the playback session lifecycle.

Byte strings are `List Nat`; machine integers are `Int`/`Nat` (Python ints are
unbounded, so no wrap-around modelling is needed).  Python `while` loops are
embedded as fuel-indexed structural recursions where the fuel provably bounds
the iteration count, keeping every definition kernel-evaluable.
-/

namespace SymMediaStreamer

/-! ## Python string helpers

`pyStrip` models Python `str.strip()` (ASCII whitespace); `splitOnChar`
models `str.split(sep)` for a single-character separator (the only kind the
source uses for range parsing: `"="` and `"-"`); `pyInt` models `int(s)` on
textual input: optional surrounding whitespace, an optional single `+`/`-`
sign, then ASCII digits with Python's underscore-grouping rule (an
underscore must stand between two digits).  Non-ASCII digits accepted by
CPython are outside this model. -/

def isPyWs (c : Char) : Bool :=
  c = ' ' || c = '\t' || c = '\n' || c = '\x0d' || c = Char.ofNat 11 || c = Char.ofNat 12

def pyStrip (l : List Char) : List Char :=
  ((l.dropWhile isPyWs).reverse.dropWhile isPyWs).reverse

def splitOnChar (c : Char) : List Char → List (List Char)
  | [] => [[]]
  | a :: rest =>
    match splitOnChar c rest with
    | [] => [[]]
    | g :: gs => if a = c then [] :: g :: gs else (a :: g) :: gs

/-- Valid digit run after Python's underscore rule: nonempty, starts and ends
with a digit, every `_` is between two digits. -/
def validDigitRun : List Char → Bool
  | [] => false
  | c :: rest => c.isDigit && validDigitTail rest
where
  validDigitTail : List Char → Bool
    | [] => true
    | c :: rest =>
      if c = '_' then
        match rest with
        | [] => false
        | d :: r2 => d.isDigit && validDigitTail r2
      else c.isDigit && validDigitTail rest

def digitsValue (l : List Char) : Nat :=
  l.foldl (fun acc c => acc * 10 + (c.toNat - 48)) 0

def digitRunValue (l : List Char) : Option Nat :=
  if validDigitRun l then some (digitsValue (l.filter (fun c => c ≠ '_'))) else none

def pyInt (l : List Char) : Option Int :=
  match pyStrip l with
  | [] => none
  | '+' :: rest => (digitRunValue rest).map Int.ofNat
  | '-' :: rest => (digitRunValue rest).map (fun n => -(n : Int))
  | c :: rest => (digitRunValue (c :: rest)).map Int.ofNat

/-! ## HTTP range request handling (`http_server.py`)

`parse_range_header` embeds the parsing block of
`RangeRequestHandler.send_head` (lines 128–135): strip, split on `"="` into
exactly two parts, require unit `bytes`, split the range spec on `"-"` into
exactly two parts, parse each side with `int` (an omitted start defaults to
0, an omitted end defaults to `file_size - 1`).  `none` corresponds to the
`ValueError`/`Exception` fallback that treats the header as absent. -/

def parse_range_header (l : List Char) (fileSize : Nat) : Option (Int × Int) :=
  match splitOnChar '=' (pyStrip l) with
  | [units, rangeSpec] =>
    if units = "bytes".data then
      match splitOnChar '-' rangeSpec with
      | [startStr, endStr] =>
        match (if startStr = [] then some 0 else pyInt startStr),
              (if endStr = [] then some ((fileSize : Int) - 1) else pyInt endStr) with
        | some s, some e => some (s, e)
        | _, _ => none
      | _ => none
    else none
  | _ => none

/-- The `while sent < count` loop of `RangeRequestHandler._sendfile`: copy up
to `remaining` bytes starting at `offset`, chunk by chunk, stopping early at
end of file.  `fuel` only bounds the number of iterations (each iteration
sends at least one byte, so `fuel = remaining` suffices); it does not change
the semantics. -/
def sendfile_go (file : List Nat) : Nat → Nat → Nat → List Nat
  | 0, _, _ => []
  | fuel + 1, offset, remaining =>
    if remaining = 0 then []
    else
      let avail := file.drop offset
      let n := min avail.length remaining
      if n = 0 then []
      else avail.take n ++ sendfile_go file fuel (offset + n) (remaining - n)

/-- `RangeRequestHandler._sendfile(in_fd, out_fd, count, offset)`: copies
`count` bytes from `offset`; a non-positive `count` copies nothing (the loop
guard `sent < count` fails immediately). -/
def sendfile_copy (file : List Nat) (offset : Nat) (count : Int) : List Nat :=
  sendfile_go file count.toNat offset count.toNat

/-- The full-file streaming loop of `RangeRequestHandler.copyfile` (no active
range): read 64 KiB chunks until the source is exhausted.  `fuel` bounds the
iterations (each nonempty chunk advances `pos` by at least one). -/
def copy_full_go (file : List Nat) : Nat → Nat → List Nat
  | 0, _ => []
  | fuel + 1, pos =>
    let buf := (file.drop pos).take 65536
    if buf.isEmpty then [] else buf ++ copy_full_go file fuel (pos + buf.length)

def copy_full (file : List Nat) : List Nat :=
  copy_full_go file (file.length + 1) 0

/-- Observable outcome of one `GET` request as produced by `send_head`
followed by `copyfile`: status line, the `Content-Range` and
`Content-Length` headers when sent, the tracked `_range_start`/`_range_end`
pair, and the response body bytes. -/
structure HResponse where
  status : Nat
  contentRange : Option String
  contentLength : Option Int
  rangeStart : Option Int
  rangeEnd : Option Int
  body : List Nat
deriving DecidableEq, Repr

/-- The `200` full-content response (`send_head` lines 164–170 plus the
no-range branch of `copyfile`). -/
def full_response (file : List Nat) : HResponse :=
  { status := 200
    contentRange := none
    contentLength := some (file.length : Int)
    rangeStart := none
    rangeEnd := none
    body := copy_full file }

/-- `RangeRequestHandler.send_head` restricted to an existing regular file of
content `file`, composed with the body transfer of `do_GET`/`copyfile`.
`rangeHeader` is the raw value of the `Range` header (`none` when absent; the
empty string is falsy in Python, hence also treated as absent). -/
def send_head (rangeHeader : Option String) (file : List Nat) : HResponse :=
  let fileSize := file.length
  match rangeHeader with
  | none => full_response file
  | some h =>
    if h = "" then full_response file
    else
      match parse_range_header h.data fileSize with
      | none => full_response file
      | some (start, e) =>
        if (fileSize : Int) ≤ start then
          { status := 416
            contentRange := some ("bytes */" ++ toString fileSize)
            contentLength := none
            rangeStart := none
            rangeEnd := none
            body := [] }
        else
          let eC := min e ((fileSize : Int) - 1)
          let length := eC - start + 1
          { status := 206
            contentRange :=
              some ("bytes " ++ toString start ++ "-" ++ toString eC ++ "/" ++ toString fileSize)
            contentLength := some length
            rangeStart := some start
            rangeEnd := some eC
            body := sendfile_copy file start.toNat length }

/-! ## Supporting lemmas for the range-server model -/

theorem splitOnChar_ne_nil (c : Char) (l : List Char) : splitOnChar c l ≠ [] := by
  cases l with
  | nil => simp [splitOnChar]
  | cons a rest =>
    cases h : splitOnChar c rest with
    | nil => simp [splitOnChar, h]
    | cons g gs =>
      simp only [splitOnChar, h]
      split <;> simp

theorem not_mem_of_mem_splitOnChar (c : Char) :
    ∀ l p, p ∈ splitOnChar c l → c ∉ p := by
  intro l
  induction l with
  | nil =>
    intro p hp
    simp only [splitOnChar, List.mem_singleton] at hp
    subst hp; simp
  | cons a rest ih =>
    intro p hp
    cases h : splitOnChar c rest with
    | nil => exact absurd h (splitOnChar_ne_nil c rest)
    | cons g gs =>
      simp only [splitOnChar, h] at hp
      by_cases hac : a = c
      · rw [if_pos hac] at hp
        rcases List.mem_cons.mp hp with rfl | hp'
        · simp
        · exact ih p (h ▸ hp')
      · rw [if_neg hac] at hp
        rcases List.mem_cons.mp hp with rfl | hp'
        · intro hc
          rcases List.mem_cons.mp hc with rfl | hg
          · exact hac rfl
          · exact ih g (h ▸ List.mem_cons_self g gs) hg
        · exact ih p (h ▸ List.mem_cons_of_mem g hp')

theorem mem_of_mem_dropWhile {α : Type} (p : α → Bool) :
    ∀ l : List α, ∀ a ∈ l.dropWhile p, a ∈ l := by
  intro l
  induction l with
  | nil => intro a ha; simp [List.dropWhile] at ha
  | cons b t ih =>
    intro a ha
    cases hb : p b with
    | false =>
      simp only [List.dropWhile, hb] at ha
      exact ha
    | true =>
      simp only [List.dropWhile, hb] at ha
      exact List.mem_cons_of_mem b (ih a ha)

theorem mem_of_mem_pyStrip {a : Char} {l : List Char} (h : a ∈ pyStrip l) : a ∈ l := by
  unfold pyStrip at h
  rw [List.mem_reverse] at h
  have h1 := mem_of_mem_dropWhile isPyWs _ a h
  rw [List.mem_reverse] at h1
  exact mem_of_mem_dropWhile isPyWs l a h1

theorem pyInt_nonneg {l : List Char} (hm : '-' ∉ l) {v : Int}
    (h : pyInt l = some v) : 0 ≤ v := by
  unfold pyInt at h
  split at h
  · cases h
  · rcases Option.map_eq_some'.mp h with ⟨n, _, rfl⟩
    exact Int.ofNat_nonneg n
  · rename_i rest heq
    have : '-' ∈ pyStrip l := by rw [heq]; exact List.mem_cons_self _ _
    exact absurd (mem_of_mem_pyStrip this) hm
  · rcases Option.map_eq_some'.mp h with ⟨n, _, rfl⟩
    exact Int.ofNat_nonneg n

/-- When the range header parses, the start value is nonnegative (the `-`
separator consumed any minus sign, so `int(start_str)` cannot be negative),
and the end value is nonnegative or the `fileSize - 1` default. -/
theorem parse_range_header_bounds {l : List Char} {S : Nat} {s e : Int}
    (h : parse_range_header l S = some (s, e)) :
    0 ≤ s ∧ (0 ≤ e ∨ e = (S : Int) - 1) := by
  unfold parse_range_header at h
  split at h
  case h_2 => exact absurd h (by simp)
  case h_1 units rangeSpec heq =>
    split at h
    case isFalse => exact absurd h (by simp)
    case isTrue =>
      split at h
      case h_2 => exact absurd h (by simp)
      case h_1 startStr endStr heq2 =>
        have hstart : '-' ∉ startStr :=
          not_mem_of_mem_splitOnChar '-' rangeSpec startStr
            (heq2 ▸ List.mem_cons_self _ _)
        have hend : '-' ∉ endStr :=
          not_mem_of_mem_splitOnChar '-' rangeSpec endStr
            (heq2 ▸ List.mem_cons_of_mem _ (List.mem_cons_self _ _))
        split at h
        case h_2 => exact absurd h (by simp)
        case h_1 s' e' hs' he' =>
          obtain ⟨rfl, rfl⟩ : s' = s ∧ e' = e := by
            injection h with h'
            exact ⟨congrArg Prod.fst h', congrArg Prod.snd h'⟩
          constructor
          · by_cases hz : startStr = []
            · rw [if_pos hz] at hs'
              injection hs' with hs'; omega
            · rw [if_neg hz] at hs'
              exact pyInt_nonneg hstart hs'
          · by_cases hz : endStr = []
            · rw [if_pos hz] at he'
              injection he' with he'; right; omega
            · rw [if_neg hz] at he'
              exact Or.inl (pyInt_nonneg hend he')

theorem sendfile_go_eq (file : List Nat) :
    ∀ fuel offset remaining, remaining ≤ fuel →
      sendfile_go file fuel offset remaining = (file.drop offset).take remaining := by
  intro fuel
  induction fuel with
  | zero =>
    intro offset remaining h
    have : remaining = 0 := Nat.le_zero.mp h
    subst this
    simp [sendfile_go]
  | succ n ih =>
    intro offset remaining h
    by_cases hr : remaining = 0
    · subst hr; simp [sendfile_go]
    · simp only [sendfile_go, if_neg hr]
      by_cases hn : min (file.drop offset).length remaining = 0
      · rw [if_pos hn]
        have hlen : (file.drop offset).length = 0 := by omega
        rw [List.length_eq_zero.mp hlen]
        simp
      · rw [if_neg hn]
        have hle : remaining - min (file.drop offset).length remaining ≤ n := by omega
        rw [ih _ _ hle]
        have hdd : file.drop (offset + min (file.drop offset).length remaining) =
            (file.drop offset).drop (min (file.drop offset).length remaining) := by
          rw [List.drop_drop, Nat.add_comm]
        rw [hdd]
        have hsplit : remaining =
            min (file.drop offset).length remaining +
              (remaining - min (file.drop offset).length remaining) := by omega
        conv_rhs => rw [hsplit]
        rw [List.take_add]

theorem sendfile_copy_eq (file : List Nat) (offset : Nat) (count : Int) :
    sendfile_copy file offset count = (file.drop offset).take count.toNat :=
  sendfile_go_eq file count.toNat offset count.toNat (Nat.le_refl _)

theorem copy_full_go_eq (file : List Nat) :
    ∀ fuel pos, file.length - pos < fuel → copy_full_go file fuel pos = file.drop pos := by
  intro fuel
  induction fuel with
  | zero => intro pos h; omega
  | succ n ih =>
    intro pos h
    simp only [copy_full_go]
    by_cases hb : ((file.drop pos).take 65536).isEmpty
    · rw [if_pos hb]
      rw [List.isEmpty_iff] at hb
      rcases (List.take_eq_nil_iff).mp hb with h0 | h0
      · omega
      · rw [h0]
    · rw [if_neg hb]
      rw [List.isEmpty_iff] at hb
      have hbl : 1 ≤ ((file.drop pos).take 65536).length :=
        List.length_pos.mpr hb
      have hlen : ((file.drop pos).take 65536).length =
          min 65536 (file.length - pos) := by
        rw [List.length_take, List.length_drop]
      rw [ih (pos + ((file.drop pos).take 65536).length) (by omega)]
      have hdd : file.drop (pos + ((file.drop pos).take 65536).length) =
          (file.drop pos).drop ((file.drop pos).take 65536).length := by
        rw [List.drop_drop, Nat.add_comm]
      rw [hdd]
      have hdropeq : (file.drop pos).drop ((file.drop pos).take 65536).length =
          (file.drop pos).drop 65536 := by
        rw [List.length_take]
        rcases Nat.le_total 65536 (file.drop pos).length with hc | hc
        · rw [Nat.min_eq_left hc]
        · rw [Nat.min_eq_right hc, List.drop_length,
            List.drop_eq_nil_of_le hc]
      rw [hdropeq, List.take_append_drop]

theorem copy_full_eq (file : List Nat) : copy_full file = file := by
  unfold copy_full
  rw [copy_full_go_eq file (file.length + 1) 0 (by omega)]
  exact List.drop_zero file

/-- Parsing the empty header value fails (Python treats `""` as falsy before
even parsing; both routes yield the full-content response). -/
theorem parse_range_header_nil (S : Nat) : parse_range_header [] S = none := rfl

/-! ## Claims about the range server -/

/-- C1: for a GET on an existing file of size `S` whose `Range` header parses
as `bytes=<start>-<end>` with `start < S`, the server clamps `end` to
`min end (S-1)`, answers `206` with `Content-Range: bytes <start>-<end'>/<S>`
for the clamped `end'`, `Content-Length = end' - start + 1`, and the body is
exactly the byte span `[start, end']` of the file. -/
theorem c1_valid_range_206 (h : String) (file : List Nat) (s e : Int)
    (hp : parse_range_header h.data file.length = some (s, e))
    (hs : s < (file.length : Int)) :
    (send_head (some h) file).status = 206 ∧
    (send_head (some h) file).contentRange =
      some ("bytes " ++ toString s ++ "-" ++ toString (min e ((file.length : Int) - 1)) ++
        "/" ++ toString file.length) ∧
    (send_head (some h) file).contentLength =
      some (min e ((file.length : Int) - 1) - s + 1) ∧
    (send_head (some h) file).body =
      (file.drop s.toNat).take (min e ((file.length : Int) - 1) - s + 1).toNat := by
  have hne : h ≠ "" := by
    intro he
    rw [he] at hp
    rw [show ("" : String).data = [] from rfl, parse_range_header_nil] at hp
    cases hp
  simp only [send_head, if_neg hne, hp]
  rw [if_neg (by omega : ¬ (file.length : Int) ≤ s)]
  refine ⟨rfl, rfl, rfl, ?_⟩
  simp only
  rw [sendfile_copy_eq]

/-- C1 witness: `Range: bytes=100-199` on a 1000-byte file yields `206`,
length 100, and exactly the bytes at offsets 100–199. -/
theorem c1_valid_range_206_witness :
    (send_head (some "bytes=100-199") (List.range 1000)).status = 206 ∧
    (send_head (some "bytes=100-199") (List.range 1000)).contentLength = some 100 ∧
    (send_head (some "bytes=100-199") (List.range 1000)).body =
      ((List.range 1000).drop 100).take 100 := by
  have H := c1_valid_range_206 "bytes=100-199" (List.range 1000) 100 199
    (by rw [List.length_range]; decide) (by rw [List.length_range]; decide)
  refine ⟨H.1, ?_, ?_⟩
  · rw [H.2.2.1, List.length_range]
    norm_num
  · rw [H.2.2.2, List.length_range]
    norm_num
    rfl

/-- C2 counterexample: the claimed invariant `start <= end` fails.  On a
10-byte file the request `Range: bytes=5-2` parses successfully, `start < S`
holds, and the server answers `206` tracking and advertising the pair
`(5, 2)` with `start > end` and a negative `Content-Length` of `-2`. -/
theorem c2_counterexample :
    (send_head (some "bytes=5-2") (List.replicate 10 0)).status = 206 ∧
    (send_head (some "bytes=5-2") (List.replicate 10 0)).rangeStart = some 5 ∧
    (send_head (some "bytes=5-2") (List.replicate 10 0)).rangeEnd = some 2 ∧
    (send_head (some "bytes=5-2") (List.replicate 10 0)).contentLength = some (-2) ∧
    ¬ (5 : Int) ≤ 2 := by
  refine ⟨by decide, by decide, by decide, by decide, by decide⟩

/-- C2 (amended): every `(start, end)` pair the server tracks and serves in a
`206` answer satisfies `0 <= start <= fileSize - 1` and `end <= fileSize - 1`;
`start <= end` additionally holds whenever the parsed request already had
`start <= end` (in particular when `end` was omitted), but it is not enforced
when the request asks for `end < start`. -/
theorem c2_amended (h : String) (file : List Nat) (s e : Int)
    (hp : parse_range_header h.data file.length = some (s, e))
    (hs : s < (file.length : Int)) :
    (send_head (some h) file).rangeStart = some s ∧
    (send_head (some h) file).rangeEnd = some (min e ((file.length : Int) - 1)) ∧
    0 ≤ s ∧ s ≤ (file.length : Int) - 1 ∧
    min e ((file.length : Int) - 1) ≤ (file.length : Int) - 1 ∧
    (s ≤ e → s ≤ min e ((file.length : Int) - 1)) := by
  have hne : h ≠ "" := by
    intro he
    rw [he] at hp
    rw [show ("" : String).data = [] from rfl, parse_range_header_nil] at hp
    cases hp
  have hb := parse_range_header_bounds hp
  simp only [send_head, if_neg hne, hp]
  rw [if_neg (by omega : ¬ (file.length : Int) ≤ s)]
  refine ⟨rfl, rfl, hb.1, by omega, min_le_right _ _, fun hse => ?_⟩
  exact le_min hse (by omega)

/-- C2 amended witness: `Range: bytes=3-7` on a 10-byte file tracks the pair
`(3, 7)`, which satisfies the amended bounds. -/
theorem c2_amended_witness :
    (send_head (some "bytes=3-7") (List.replicate 10 0)).rangeStart = some 3 ∧
    (send_head (some "bytes=3-7") (List.replicate 10 0)).rangeEnd = some 7 ∧
    (0 : Int) ≤ 3 ∧ (3 : Int) ≤ 7 := by
  have H := c2_amended "bytes=3-7" (List.replicate 10 0) 3 7 (by decide) (by decide)
  refine ⟨H.1, ?_, H.2.2.1, by decide⟩
  rw [H.2.1]
  decide

/-- C7: when the parsed range start is at or past the end of the file, the
server answers `416` with `Content-Range: bytes */<fileSize>`, no
`Content-Length`, and an empty body. -/
theorem c7_start_past_eof_416 (h : String) (file : List Nat) (s e : Int)
    (hp : parse_range_header h.data file.length = some (s, e))
    (hs : (file.length : Int) ≤ s) :
    (send_head (some h) file).status = 416 ∧
    (send_head (some h) file).contentRange = some ("bytes */" ++ toString file.length) ∧
    (send_head (some h) file).contentLength = none ∧
    (send_head (some h) file).body = [] := by
  have hne : h ≠ "" := by
    intro he
    rw [he] at hp
    rw [show ("" : String).data = [] from rfl, parse_range_header_nil] at hp
    cases hp
  simp only [send_head, if_neg hne, hp]
  rw [if_pos hs]
  exact ⟨rfl, rfl, rfl, rfl⟩

/-- C7 witness: `Range: bytes=10-` on a 10-byte file (start equal to the file
size) is answered `416` with `Content-Range: bytes */10` and no body. -/
theorem c7_start_past_eof_416_witness :
    (send_head (some "bytes=10-") (List.replicate 10 0)).status = 416 ∧
    (send_head (some "bytes=10-") (List.replicate 10 0)).contentRange =
      some ("bytes */" ++ toString (List.replicate 10 (0 : Nat)).length) ∧
    (send_head (some "bytes=10-") (List.replicate 10 0)).body = [] := by
  have H := c7_start_past_eof_416 "bytes=10-" (List.replicate 10 0) 10 9
    (by decide) (by decide)
  exact ⟨H.1, H.2.1, H.2.2.2⟩

/-- C8: a present-but-malformed `Range` header (anything the parsing block
rejects: wrong unit, unparsable numbers, wrong shape) makes the server behave
exactly as if the header were absent: the response is identical to the
no-header response — `200`, `Content-Length` equal to the file size, and the
full file as the body. -/
theorem c8_malformed_range_full_200 (h : String) (file : List Nat)
    (hp : parse_range_header h.data file.length = none) :
    send_head (some h) file = send_head none file ∧
    (send_head (some h) file).status = 200 ∧
    (send_head (some h) file).contentLength = some (file.length : Int) ∧
    (send_head (some h) file).body = file := by
  have hfull : send_head (some h) file = full_response file := by
    by_cases hne : h = ""
    · simp [send_head, hne]
    · simp only [send_head, if_neg hne, hp]
  rw [hfull]
  refine ⟨rfl, rfl, rfl, ?_⟩
  exact copy_full_eq file

/-- C8 witness: both malformed examples from the specification —
`bytes=abc-def` (unparsable numbers) and `items=0-100` (wrong unit) — fall
back to the full `200` response on a 3-byte file. -/
theorem c8_malformed_range_full_200_witness :
    ((send_head (some "bytes=abc-def") [1, 2, 3]).status = 200 ∧
      (send_head (some "bytes=abc-def") [1, 2, 3]).body = [1, 2, 3]) ∧
    ((send_head (some "items=0-100") [1, 2, 3]).status = 200 ∧
      (send_head (some "items=0-100") [1, 2, 3]).body = [1, 2, 3]) := by
  have H1 := c8_malformed_range_full_200 "bytes=abc-def" [1, 2, 3] (by decide)
  have H2 := c8_malformed_range_full_200 "items=0-100" [1, 2, 3] (by decide)
  exact ⟨⟨H1.2.1, H1.2.2.2⟩, ⟨H2.2.1, H2.2.2.2⟩⟩

/-! ## SSDP discovery (`ssdp.py`)

`_parse_ssdp_response` splits the datagram text on `"\r\n"`, skips the
status line, and keeps `Name: value` lines split at the first colon, with the
name lowercased and both sides stripped.  Python dict assignment lets a later
occurrence of the same header overwrite an earlier one, so lookup returns the
last occurrence.  `discover` loops over the search targets, and for each
datagram received accepts it only when it has a non-empty `LOCATION` header
and its `(location, usn)` pair has not been seen earlier in the whole run. -/

/-- Python `line.split(":", 1)`: split at the first occurrence of `c`,
returning `none` when `c` does not occur. -/
def splitFirstChar (c : Char) : List Char → Option (List Char × List Char)
  | [] => none
  | a :: rest =>
    if a = c then some ([], rest)
    else (splitFirstChar c rest).map (fun p => (a :: p.1, p.2))

def lowerStrip (l : List Char) : List Char :=
  pyStrip (l.map Char.toLower)

/-- `_parse_ssdp_response`: header lines of the datagram as
`(lowercased stripped name, stripped value)` pairs, in order of appearance. -/
def parse_ssdp_response (text : String) : List (List Char × List Char) :=
  ((text.splitOn "\x0d\n").drop 1).filterMap fun line =>
    (splitFirstChar ':' line.data).map fun p => (lowerStrip p.1, pyStrip p.2)

/-- Python `headers.get(k)`: dict insertion overwrites, so the value is that
of the last pair with the given key. -/
def dictGet (pairs : List (List Char × List Char)) (k : List Char) : Option (List Char) :=
  (pairs.reverse.find? (fun p => p.1 = k)).map (fun p => p.2)

structure SSDPDevice where
  location : List Char
  st : List Char
  usn : List Char
  server : List Char
deriving DecidableEq, Repr

def deviceKey (d : SSDPDevice) : List Char × List Char := (d.location, d.usn)

/-- One iteration of the receive loop of `discover` (ssdp.py lines 192–203):
parse the datagram, skip it unless `LOCATION` is non-empty, deduplicate on
`(location, usn)` across the accumulated `seen` set.  `st` is the search
target of the surrounding loop (the default for a missing `ST` header). -/
def discover_step (st : String) (acc : List (List Char × List Char) × List SSDPDevice)
    (data : String) : List (List Char × List Char) × List SSDPDevice :=
  let (seen, devices) := acc
  let headers := parse_ssdp_response data
  let location := (dictGet headers "location".data).getD []
  let stHdr := (dictGet headers "st".data).getD st.data
  let usn := (dictGet headers "usn".data).getD []
  let server := (dictGet headers "server".data).getD []
  if location = [] then acc
  else if (location, usn) ∈ seen then acc
  else (seen ++ [(location, usn)], devices ++ [⟨location, stHdr, usn, server⟩])

/-- `discover`, as a function of the raw SSDP replies received: `runs` lists,
for each search target in order, the datagrams received during that target's
listen window (a target whose `sendto` failed, or whose window timed out
immediately, simply contributes an empty list). -/
def discover (runs : List (String × List String)) : List SSDPDevice :=
  (runs.foldl (fun acc run => run.2.foldl (discover_step run.1) acc) ([], [])).2

/-- The `(location, usn)` key of a reply that `discover` accepts: present
exactly when the parsed `LOCATION` header is non-empty. -/
def acceptedKey (data : String) : Option (List Char × List Char) :=
  let headers := parse_ssdp_response data
  let location := (dictGet headers "location".data).getD []
  let usn := (dictGet headers "usn".data).getD []
  if location = [] then none else some (location, usn)

/-- All accepted keys of an entire discovery run, across every search
target. -/
def acceptedKeys : List (String × List String) → List (List Char × List Char)
  | [] => []
  | run :: rest => run.2.filterMap acceptedKey ++ acceptedKeys rest

/-- Invariant carried by the receive loops: `seen` is exactly the list of
keys of the devices collected so far, without duplicates. -/
def discoverInv (acc : List (List Char × List Char) × List SSDPDevice) : Prop :=
  acc.1 = acc.2.map deviceKey ∧ acc.1.Nodup

theorem discover_step_inv (st : String) (acc) (data : String)
    (h : discoverInv acc) : discoverInv (discover_step st acc data) := by
  obtain ⟨h1, h2⟩ := h
  unfold discover_step
  obtain ⟨seen, devices⟩ := acc
  simp only at h1 h2 ⊢
  split
  · exact ⟨h1, h2⟩
  · split
    · exact ⟨h1, h2⟩
    · rename_i hmem
      refine ⟨by simp [h1, deviceKey], ?_⟩
      rw [List.nodup_append]
      exact ⟨h2, List.nodup_singleton _, by simpa using fun hx => hmem hx⟩

theorem discover_step_keys (st : String) (acc) (data : String) :
    ∀ k, k ∈ (discover_step st acc data).1 ↔
      (k ∈ acc.1 ∨ acceptedKey data = some k) := by
  intro k
  unfold discover_step acceptedKey
  obtain ⟨seen, devices⟩ := acc
  simp only
  split
  · rename_i hloc
    simp [hloc]
  · rename_i hloc
    split
    · rename_i hmem
      simp only [if_neg hloc]
      constructor
      · intro hk; exact Or.inl hk
      · rintro (hk | hk)
        · exact hk
        · injection hk with hk; exact hk ▸ hmem
    · simp only [if_neg hloc, List.mem_append, List.mem_singleton]
      constructor
      · rintro (hk | hk)
        · exact Or.inl hk
        · exact Or.inr (by rw [hk])
      · rintro (hk | hk)
        · exact Or.inl hk
        · injection hk with hk; exact Or.inr hk.symm

theorem discover_fold_inner (st : String) :
    ∀ (datas : List String) (acc), discoverInv acc →
      discoverInv (datas.foldl (discover_step st) acc) ∧
      ∀ k, k ∈ (datas.foldl (discover_step st) acc).1 ↔
        (k ∈ acc.1 ∨ k ∈ datas.filterMap acceptedKey) := by
  intro datas
  induction datas with
  | nil => intro acc h; exact ⟨h, by simp⟩
  | cons d ds ih =>
    intro acc h
    have hstep := discover_step_inv st acc d h
    obtain ⟨ha, hb⟩ := ih (discover_step st acc d) hstep
    refine ⟨ha, fun k => ?_⟩
    rw [List.foldl_cons, hb k, discover_step_keys st acc d k]
    simp only [List.filterMap_cons]
    cases hak : acceptedKey d with
    | none => simp [hak]
    | some k0 =>
      simp only [List.mem_cons]
      constructor
      · rintro ((hk | hk) | hk)
        · exact Or.inl hk
        · injection hk with hk; exact Or.inr (Or.inl hk.symm)
        · exact Or.inr (Or.inr hk)
      · rintro (hk | hk | hk)
        · exact Or.inl (Or.inl hk)
        · exact Or.inl (Or.inr (by rw [hk]))
        · exact Or.inr hk

theorem discover_fold_outer :
    ∀ (runs : List (String × List String)) (acc), discoverInv acc →
      discoverInv (runs.foldl (fun a run => run.2.foldl (discover_step run.1) a) acc) ∧
      ∀ k, k ∈ (runs.foldl (fun a run => run.2.foldl (discover_step run.1) a) acc).1 ↔
        (k ∈ acc.1 ∨ k ∈ acceptedKeys runs) := by
  intro runs
  induction runs with
  | nil => intro acc h; exact ⟨h, by simp [acceptedKeys]⟩
  | cons run rest ih =>
    intro acc h
    obtain ⟨ha, hb⟩ := discover_fold_inner run.1 run.2 acc h
    obtain ⟨hc, hd⟩ := ih _ ha
    refine ⟨hc, fun k => ?_⟩
    rw [List.foldl_cons, hd k, hb k]
    simp only [acceptedKeys, List.mem_append]
    tauto

theorem countP_eq_key {α : Type} [DecidableEq α] :
    ∀ l : List α, l.Nodup → ∀ a : α,
      l.countP (fun x => decide (x = a)) = if a ∈ l then 1 else 0 := by
  intro l
  induction l with
  | nil => intro _ a; simp
  | cons b t ih =>
    intro h a
    obtain ⟨hb, ht⟩ := List.nodup_cons.mp h
    rw [List.countP_cons, ih ht a]
    by_cases hab : b = a
    · subst hab
      simp [hb]
    · simp [hab, Ne.symm hab]

/-- C5: across all search targets of one run, `discover` returns exactly one
device record per distinct `(location, usn)` pair among the accepted replies
(those with a non-empty `LOCATION` header), and none for anything else: the
number of returned devices with a given key is 1 when some accepted reply
carries that key — regardless of how many replies or targets produced it —
and 0 otherwise. -/
theorem c5_discover_dedup (runs : List (String × List String))
    (k : List Char × List Char) :
    ((discover runs).map deviceKey).countP (fun x => decide (x = k)) =
      (if k ∈ acceptedKeys runs then 1 else 0) := by
  obtain ⟨hinv, hkeys⟩ := discover_fold_outer runs ([], []) ⟨rfl, List.nodup_nil⟩
  set acc := runs.foldl (fun a run => run.2.foldl (discover_step run.1) a) ([], []) with hacc
  obtain ⟨h1, h2⟩ := hinv
  have hmem : k ∈ (discover runs).map deviceKey ↔ k ∈ acceptedKeys runs := by
    rw [discover, ← hacc, ← h1, hkeys k]
    simp
  have hnodup : ((discover runs).map deviceKey).Nodup := by
    rw [discover, ← hacc, ← h1]; exact h2
  rw [countP_eq_key _ hnodup k]
  by_cases hk : k ∈ acceptedKeys runs
  · rw [if_pos hk, if_pos (hmem.mpr hk)]
  · rw [if_neg hk, if_neg (fun hx => hk (hmem.mp hx))]

/-! ## SOAP control clients (`avtransport.py`, `rendering_control.py`)

The SOAP bodies are Python f-strings; they are embedded verbatim, including
the triple-quoted indentation.  `escape_xml` embeds `_escape_xml`, the chain
of five single-character `str.replace` calls (in source order `&`, `<`, `>`,
`"`, `'`); a single-character `replace` is the per-character expansion
`replaceChar`. -/

def replaceChar (c : Char) (r : List Char) : List Char → List Char
  | [] => []
  | a :: rest => (if a = c then r else [a]) ++ replaceChar c r rest

def escape_xml (s : String) : String :=
  String.mk
    (replaceChar (Char.ofNat 39) "&apos;".data
      (replaceChar (Char.ofNat 34) "&quot;".data
        (replaceChar '>' "&gt;".data
          (replaceChar '<' "&lt;".data
            (replaceChar '&' "&amp;".data s.data)))))

def AVTRANSPORT_CONTROL_NS : String := "urn:schemas-upnp-org:service:AVTransport:1"

def RENDERING_CONTROL_NS : String := "urn:schemas-upnp-org:service:RenderingControl:1"

def SOAP_ENV : String := "http://schemas.xmlsoap.org/soap/envelope/"

/-- The envelope built by `_post_soap` around an action body. -/
def soap_envelope (bodyXml : String) : String :=
  "<?xml version=\"1.0\" encoding=\"utf-8\"?>\n            <s:Envelope xmlns:s=\"" ++
    SOAP_ENV ++
    "\" s:encodingStyle=\"http://schemas.xmlsoap.org/soap/encoding/\">\n                <s:Body>\n                    " ++
    bodyXml ++ "\n                </s:Body>\n            </s:Envelope>"

/-- Body built by `DLNAController.set_av_transport_uri`: the URI and metadata
arguments pass through `_escape_xml`. -/
def set_av_transport_uri_body (instanceId : Nat) (currentUri currentUriMetadata : String) :
    String :=
  "<u:SetAVTransportURI xmlns:u=\"" ++ AVTRANSPORT_CONTROL_NS ++
    "\">\n            <InstanceID>" ++ toString instanceId ++
    "</InstanceID>\n            <CurrentURI>" ++ escape_xml currentUri ++
    "</CurrentURI>\n            <CurrentURIMetaData>" ++ escape_xml currentUriMetadata ++
    "</CurrentURIMetaData>\n        </u:SetAVTransportURI>"

/-- Body built by `DLNAController.play`: `speed` is interpolated directly. -/
def play_body (instanceId : Nat) (speed : String) : String :=
  "<u:Play xmlns:u=\"" ++ AVTRANSPORT_CONTROL_NS ++
    "\">\n            <InstanceID>" ++ toString instanceId ++
    "</InstanceID>\n            <Speed>" ++ speed ++
    "</Speed>\n        </u:Play>"

/-- Body built by `DLNAController.seek`: `target` is interpolated directly. -/
def seek_body (instanceId : Nat) (target : String) : String :=
  "<u:Seek xmlns:u=\"" ++ AVTRANSPORT_CONTROL_NS ++
    "\">\n            <InstanceID>" ++ toString instanceId ++
    "</InstanceID>\n            <Unit>REL_TIME</Unit>\n            <Target>" ++ target ++
    "</Target>\n        </u:Seek>"

/-- Body built by `RenderingControl.set_volume`: `channel` and `volume` are
interpolated directly. -/
def set_volume_body (instanceId : Nat) (channel : String) (volume : Int) : String :=
  "<u:SetVolume xmlns:u=\"" ++ RENDERING_CONTROL_NS ++
    "\">\n            <InstanceID>" ++ toString instanceId ++
    "</InstanceID>\n            <Channel>" ++ channel ++
    "</Channel>\n            <DesiredVolume>" ++ toString volume ++
    "</DesiredVolume>\n        </u:SetVolume>"

/-- `_get_dlna_profile` (avtransport.py lines 21–36). -/
def get_dlna_profile (mime : String) : String :=
  if mime = "video/mp4" then
    "DLNA.ORG_PN=AVC_MP4_HD_24_AC3;DLNA.ORG_OP=11;DLNA.ORG_CI=0;DLNA.ORG_FLAGS=01500000000000000000000000000000"
  else if mime = "video/x-matroska" then
    "DLNA.ORG_PN=AVC_MKV_HD_24_AC3;DLNA.ORG_OP=11;DLNA.ORG_CI=0;DLNA.ORG_FLAGS=01500000000000000000000000000000"
  else if mime.startsWith "video/" then
    "DLNA.ORG_OP=11;DLNA.ORG_CI=0;DLNA.ORG_FLAGS=01500000000000000000000000000000"
  else if mime.startsWith "audio/" then
    "DLNA.ORG_PN=MP3;DLNA.ORG_OP=11;DLNA.ORG_CI=0;DLNA.ORG_FLAGS=01500000000000000000000000000000"
  else
    "DLNA.ORG_OP=11;DLNA.ORG_CI=0;DLNA.ORG_FLAGS=01500000000000000000000000000000"

/-- `build_didl_lite_metadata` (avtransport.py lines 39–71): the title and
URL are escaped, the `upnp:class` is derived from the MIME type. -/
def build_didl_lite_metadata (contentUrl title mimeType : String) : String :=
  let upnpClass :=
    if mimeType.startsWith "video/" then "object.item.videoItem"
    else if mimeType.startsWith "audio/" then "object.item.audioItem"
    else "object.item"
  let protocolInfo := "http-get:*:" ++ mimeType ++ ":" ++ get_dlna_profile mimeType
  "<DIDL-Lite xmlns=\"urn:schemas-upnp-org:metadata-1-0/DIDL-Lite/\" xmlns:dc=\"http://purl.org/dc/elements/1.1/\" xmlns:upnp=\"urn:schemas-upnp-org:metadata-1-0/upnp/\">" ++
    "<item id=\"0\" parentID=\"0\" restricted=\"1\">" ++
    "<dc:title>" ++ escape_xml title ++ "</dc:title>" ++
    "<upnp:class>" ++ upnpClass ++ "</upnp:class>" ++
    "<res protocolInfo=\"" ++ protocolInfo ++ "\">" ++ escape_xml contentUrl ++ "</res>" ++
    "</item>" ++
    "</DIDL-Lite>"

theorem mem_replaceChar {c : Char} {r : List Char} :
    ∀ {l : List Char} {x : Char}, x ∈ replaceChar c r l → x ∈ r ∨ (x ∈ l ∧ x ≠ c) := by
  intro l
  induction l with
  | nil => intro x hx; simp [replaceChar] at hx
  | cons a rest ih =>
    intro x hx
    simp only [replaceChar, List.mem_append] at hx
    rcases hx with hx | hx
    · by_cases hac : a = c
      · rw [if_pos hac] at hx
        exact Or.inl hx
      · rw [if_neg hac] at hx
        rcases List.mem_singleton.mp hx with rfl
        exact Or.inr ⟨List.mem_cons_self _ _, hac⟩
    · rcases ih hx with hr | ⟨hl, hc⟩
      · exact Or.inl hr
      · exact Or.inr ⟨List.mem_cons_of_mem _ hl, hc⟩

/-- Output of `_escape_xml` never contains a raw `<`, `>`, `"` or `'`: every
character either comes from one of the five entity strings or is an original
character distinct from all five escaped ones. -/
theorem escape_xml_no_raw_specials (s : String) :
    (escape_xml s).data.all
      (fun ch => !(ch = '<' || ch = '>' || ch = Char.ofNat 34 || ch = Char.ofNat 39)) = true := by
  rw [List.all_eq_true]
  intro ch hch
  have hch' : ch ∈
      replaceChar (Char.ofNat 39) "&apos;".data
        (replaceChar (Char.ofNat 34) "&quot;".data
          (replaceChar '>' "&gt;".data
            (replaceChar '<' "&lt;".data
              (replaceChar '&' "&amp;".data s.data)))) := hch
  rcases mem_replaceChar hch' with h1 | ⟨h1, hne4⟩
  · fin_cases h1 <;> decide
  rcases mem_replaceChar h1 with h2 | ⟨h2, hne3⟩
  · fin_cases h2 <;> decide
  rcases mem_replaceChar h2 with h3 | ⟨h3, hne2⟩
  · fin_cases h3 <;> decide
  rcases mem_replaceChar h3 with h4 | ⟨h4, hne1⟩
  · fin_cases h4 <;> decide
  rcases mem_replaceChar h4 with h5 | ⟨h5, hne0⟩
  · fin_cases h5 <;> decide
  simp [hne1, hne2, hne3, hne4]

set_option maxRecDepth 40000 in
/-- C4 counterexample: the `Seek` target is interpolated into the SOAP
envelope unescaped.  For target `a<b` the envelope contains the raw
`<Target>a<b</Target>` and does not contain the escaped form
`a&lt;b = escape_xml "a<b"` anywhere. -/
theorem c4_counterexample :
    "<Target>a<b</Target>".data <:+: (soap_envelope (seek_body 0 "a<b")).data ∧
    ¬ (escape_xml "a<b").data <:+: (soap_envelope (seek_body 0 "a<b")).data := by
  constructor
  · decide
  · decide

set_option maxRecDepth 40000 in
/-- C4 (amended): the argument values routed through `_escape_xml` —
`SetAVTransportURI`'s `CurrentURI` and `CurrentURIMetaData`, and the DIDL
title and URL — are XML-escaped before embedding (and escaped output carries
no raw `<`, `>`, `"`, `'`); but the `Seek` target, `Play` speed and
`SetVolume` channel argument values are interpolated into the body verbatim,
not escaped. -/
theorem c4_amended :
    (∀ s : String, (escape_xml s).data.all
      (fun ch => !(ch = '<' || ch = '>' || ch = Char.ofNat 34 || ch = Char.ofNat 39)) = true) ∧
    (∀ (iid : Nat) (uri meta : String),
      (escape_xml uri).data <:+: (set_av_transport_uri_body iid uri meta).data ∧
      (escape_xml meta).data <:+: (set_av_transport_uri_body iid uri meta).data) ∧
    (∀ url title mime : String,
      (escape_xml title).data <:+: (build_didl_lite_metadata url title mime).data ∧
      (escape_xml url).data <:+: (build_didl_lite_metadata url title mime).data) ∧
    (∀ (iid : Nat) (target : String), target.data <:+: (seek_body iid target).data) ∧
    (∀ (iid : Nat) (speed : String), speed.data <:+: (play_body iid speed).data) ∧
    (∀ (iid : Nat) (channel : String) (volume : Int),
      channel.data <:+: (set_volume_body iid channel volume).data) := by
  refine ⟨escape_xml_no_raw_specials, fun iid uri meta => ⟨?_, ?_⟩,
    fun url title mime => ⟨?_, ?_⟩, fun iid target => ?_, fun iid speed => ?_,
    fun iid channel volume => ?_⟩
  · exact ⟨("<u:SetAVTransportURI xmlns:u=\"" ++ AVTRANSPORT_CONTROL_NS ++
      "\">\n            <InstanceID>" ++ toString iid ++
      "</InstanceID>\n            <CurrentURI>").data,
      (("</CurrentURI>\n            <CurrentURIMetaData>" ++ escape_xml meta ++
      "</CurrentURIMetaData>\n        </u:SetAVTransportURI>") : String).data,
      by simp [set_av_transport_uri_body]⟩
  · exact ⟨("<u:SetAVTransportURI xmlns:u=\"" ++ AVTRANSPORT_CONTROL_NS ++
      "\">\n            <InstanceID>" ++ toString iid ++
      "</InstanceID>\n            <CurrentURI>" ++ escape_xml uri ++
      "</CurrentURI>\n            <CurrentURIMetaData>").data,
      ("</CurrentURIMetaData>\n        </u:SetAVTransportURI>" : String).data,
      by simp [set_av_transport_uri_body]⟩
  · exact ⟨("<DIDL-Lite xmlns=\"urn:schemas-upnp-org:metadata-1-0/DIDL-Lite/\" xmlns:dc=\"http://purl.org/dc/elements/1.1/\" xmlns:upnp=\"urn:schemas-upnp-org:metadata-1-0/upnp/\">" ++
      "<item id=\"0\" parentID=\"0\" restricted=\"1\">" ++ "<dc:title>").data,
      (("</dc:title>" ++ "<upnp:class>" ++
      (if mime.startsWith "video/" then "object.item.videoItem"
        else if mime.startsWith "audio/" then "object.item.audioItem"
        else "object.item") ++ "</upnp:class>" ++
      "<res protocolInfo=\"" ++ ("http-get:*:" ++ mime ++ ":" ++ get_dlna_profile mime) ++
      "\">" ++ escape_xml url ++ "</res>" ++ "</item>" ++ "</DIDL-Lite>") : String).data,
      by simp [build_didl_lite_metadata]⟩
  · exact ⟨("<DIDL-Lite xmlns=\"urn:schemas-upnp-org:metadata-1-0/DIDL-Lite/\" xmlns:dc=\"http://purl.org/dc/elements/1.1/\" xmlns:upnp=\"urn:schemas-upnp-org:metadata-1-0/upnp/\">" ++
      "<item id=\"0\" parentID=\"0\" restricted=\"1\">" ++ "<dc:title>" ++ escape_xml title ++
      "</dc:title>" ++ "<upnp:class>" ++
      (if mime.startsWith "video/" then "object.item.videoItem"
        else if mime.startsWith "audio/" then "object.item.audioItem"
        else "object.item") ++ "</upnp:class>" ++
      "<res protocolInfo=\"" ++ ("http-get:*:" ++ mime ++ ":" ++ get_dlna_profile mime) ++
      "\">").data,
      (("</res>" ++ "</item>" ++ "</DIDL-Lite>") : String).data,
      by simp [build_didl_lite_metadata]⟩
  · exact ⟨("<u:Seek xmlns:u=\"" ++ AVTRANSPORT_CONTROL_NS ++
      "\">\n            <InstanceID>" ++ toString iid ++
      "</InstanceID>\n            <Unit>REL_TIME</Unit>\n            <Target>").data,
      ("</Target>\n        </u:Seek>" : String).data,
      by simp [seek_body]⟩
  · exact ⟨("<u:Play xmlns:u=\"" ++ AVTRANSPORT_CONTROL_NS ++
      "\">\n            <InstanceID>" ++ toString iid ++
      "</InstanceID>\n            <Speed>").data,
      ("</Speed>\n        </u:Play>" : String).data,
      by simp [play_body]⟩
  · exact ⟨("<u:SetVolume xmlns:u=\"" ++ RENDERING_CONTROL_NS ++
      "\">\n            <InstanceID>" ++ toString iid ++
      "</InstanceID>\n            <Channel>").data,
      (("</Channel>\n            <DesiredVolume>" ++ toString volume ++
      "</DesiredVolume>\n        </u:SetVolume>") : String).data,
      by simp [set_volume_body]⟩

/-! ## `DLNAController.set_uri_with_metadata` (avtransport.py lines 120–128)

The remote side is abstracted by the outcome of each `set_av_transport_uri`
invocation: the POST can succeed, raise the `RuntimeError` that `_post_soap`
throws for a status ≥ 400 (the code-level `ControlError`), or raise a
transport-level `OSError` from the socket layer.  Only `RuntimeError` is
caught by the `except RuntimeError` fallback.  `mimetypes.guess_type` is
Python stdlib, outside the repository, so its result is an input
(`guessedMime`); `None` or an empty result falls back to `video/mp4`. -/

inductive CallOutcome where
  | ok
  | runtimeErr
  | osErr
deriving DecidableEq, Repr

/-- One invocation of `set_av_transport_uri`, recorded with its argument
values. -/
structure SetURICall where
  instanceId : Nat
  currentUri : String
  metadata : String
deriving DecidableEq, Repr

def guess_mime (guessedMime : Option String) : String :=
  match guessedMime with
  | some m => if m = "" then "video/mp4" else m
  | none => "video/mp4"

/-- `set_uri_with_metadata`: first attempt with DIDL-Lite metadata; on
`RuntimeError` exactly one retry with empty metadata whose own failure (of
any kind) propagates; a transport error on the first attempt propagates
uncaught.  Returns the sequence of `SetAVTransportURI` invocations made and
the overall result. -/
def set_uri_with_metadata (instanceId : Nat) (contentUrl title : String)
    (guessedMime : Option String) (first second : CallOutcome) :
    List SetURICall × Except String Unit :=
  let mime := guess_mime guessedMime
  let didl := build_didl_lite_metadata contentUrl title mime
  let call1 : SetURICall := ⟨instanceId, contentUrl, didl⟩
  match first with
  | .ok => ([call1], .ok ())
  | .runtimeErr =>
    let call2 : SetURICall := ⟨instanceId, contentUrl, ""⟩
    match second with
    | .ok => ([call1, call2], .ok ())
    | .runtimeErr => ([call1, call2], .error "RuntimeError")
    | .osErr => ([call1, call2], .error "OSError")
  | .osErr => ([call1], .error "OSError")

set_option maxRecDepth 40000 in
theorem build_didl_lite_metadata_ne_empty (url title mime : String) :
    build_didl_lite_metadata url title mime ≠ "" := by
  intro h
  have hd := congrArg String.data h
  simp only [build_didl_lite_metadata, String.data_append] at hd
  exact List.append_ne_nil_of_right_ne_nil _ (by decide) hd

/-- C6: if the first `SetAVTransportURI` attempt (carrying the non-empty
DIDL-Lite metadata) fails with the code's `ControlError` (`RuntimeError`),
exactly one retry is made, with empty metadata; if the retry also fails the
error propagates to the caller; and no invocation ever makes more than two
`SetAVTransportURI` calls. -/
theorem c6_set_uri_fallback (iid : Nat) (url title : String)
    (guessedMime : Option String) (first second : CallOutcome)
    (hfirst : first = CallOutcome.runtimeErr) :
    (set_uri_with_metadata iid url title guessedMime first second).1 =
      [⟨iid, url, build_didl_lite_metadata url title (guess_mime guessedMime)⟩,
       ⟨iid, url, ""⟩] ∧
    build_didl_lite_metadata url title (guess_mime guessedMime) ≠ "" ∧
    (second = CallOutcome.runtimeErr →
      (set_uri_with_metadata iid url title guessedMime first second).2 =
        Except.error "RuntimeError") ∧
    (second = CallOutcome.osErr →
      (set_uri_with_metadata iid url title guessedMime first second).2 =
        Except.error "OSError") ∧
    (∀ f s : CallOutcome,
      (set_uri_with_metadata iid url title guessedMime f s).1.length ≤ 2) := by
  subst hfirst
  refine ⟨?_, build_didl_lite_metadata_ne_empty url title _, ?_, ?_, ?_⟩
  · cases second <;> rfl
  · intro hs; subst hs; rfl
  · intro hs; subst hs; rfl
  · intro f s; cases f <;> cases s <;> simp [set_uri_with_metadata]

/-- C6 witness: with both attempts failing with `RuntimeError`, the call
sequence is the metadata attempt followed by the single empty-metadata retry
and the error propagates. -/
theorem c6_set_uri_fallback_witness :
    (set_uri_with_metadata 0 "http://h/f.mp4" "f" none
        CallOutcome.runtimeErr CallOutcome.runtimeErr).1 =
      [⟨0, "http://h/f.mp4", build_didl_lite_metadata "http://h/f.mp4" "f" (guess_mime none)⟩,
       ⟨0, "http://h/f.mp4", ""⟩] ∧
    (set_uri_with_metadata 0 "http://h/f.mp4" "f" none
        CallOutcome.runtimeErr CallOutcome.runtimeErr).2 = Except.error "RuntimeError" := by
  have H := c6_set_uri_fallback 0 "http://h/f.mp4" "f" none
    CallOutcome.runtimeErr CallOutcome.runtimeErr rfl
  exact ⟨H.1, H.2.2.1 rfl⟩

/-! ## `PlaybackSession` lifecycle (`gui.py` lines 111–245)

Session state mirrors the fields of `PlaybackSession.__init__`: the four
client/server fields are tracked as presence booleans (the Python fields hold
an object or `None`), plus the `active`/`paused` flags and the current-file
and subtitle fields. -/

structure PlaybackState where
  httpdPresent : Bool
  httpThreadPresent : Bool
  controllerPresent : Bool
  renderCtrlPresent : Bool
  active : Bool
  paused : Bool
  currentFile : Option String
  subtitleFile : Option String
  subtitleTrack : Option Nat
deriving DecidableEq, Repr

/-- The fully cleared (`Idle`) state: every field as `PlaybackSession.stop`
leaves it. -/
def idleState : PlaybackState :=
  { httpdPresent := false
    httpThreadPresent := false
    controllerPresent := false
    renderCtrlPresent := false
    active := false
    paused := false
    currentFile := none
    subtitleFile := none
    subtitleTrack := none }

/-- Parameter names accepted by `DLNAController.set_uri_with_metadata`
(avtransport.py line 120). -/
def set_uri_with_metadata_param_names : List String :=
  ["self", "instance_id", "content_url", "title"]

/-- Keyword arguments supplied to `set_uri_with_metadata` by the call inside
`PlaybackSession.start`'s async `run` (gui.py lines 160–162). -/
def start_run_set_uri_kwargs : List String :=
  ["local_file_path"]

/-- A Python call raises `TypeError` before entering the callee when a
keyword argument does not name a parameter. -/
def start_run_call_accepted : Bool :=
  start_run_set_uri_kwargs.all (fun k => set_uri_with_metadata_param_names.contains k)

/-- The `except Exception` cleanup of `run` (gui.py lines 167–179): the HTTP
server and control clients are dropped and the flags cleared; note that
`current_file` and the subtitle fields are not touched here. -/
def start_fail_cleanup (s : PlaybackState) : PlaybackState :=
  { s with
    httpdPresent := false
    httpThreadPresent := false
    controllerPresent := false
    renderCtrlPresent := false
    active := false
    paused := false }

/-- The async `run` closure of `PlaybackSession.start`: it calls
`set_uri_with_metadata(0, file_url, title, local_file_path=...)` and then
`play(0)` inside one `try`.  If the call's keyword arguments are not accepted
by the callee's signature, Python raises `TypeError` at the call site, which
the `except Exception` handler turns into cleanup; otherwise the oracles
`setUriOk`/`playOk` decide whether the remote invocations succeed. -/
def start_async_run (s : PlaybackState) (setUriOk playOk : Bool) : PlaybackState :=
  if start_run_call_accepted then
    if setUriOk then
      if playOk then { s with active := true, paused := false }
      else start_fail_cleanup s
    else start_fail_cleanup s
  else start_fail_cleanup s

/-- C3: the claim's success path is dead code.  `PlaybackSession.start`'s
async phase passes the keyword argument `local_file_path`, which
`set_uri_with_metadata(self, instance_id, content_url, title)` does not
accept, so the call raises `TypeError` before any SOAP request; the handler
then tears the session down.  Hence for every prior state and every remote
outcome, the async phase ends in the cleaned-up failure state with `active`
false — the transition to `Playing` is unreachable. -/
theorem c3_start_async_always_fails (s : PlaybackState) (setUriOk playOk : Bool) :
    start_run_call_accepted = false ∧
    start_async_run s setUriOk playOk = start_fail_cleanup s ∧
    (start_async_run s setUriOk playOk).active = false ∧
    (start_async_run s setUriOk playOk).controllerPresent = false ∧
    (start_async_run s setUriOk playOk).httpdPresent = false := by
  have hcall : start_run_call_accepted = false := rfl
  refine ⟨hcall, ?_, ?_, ?_, ?_⟩ <;>
    simp [start_async_run, hcall, start_fail_cleanup]

/-! ### `PlaybackSession.stop` (gui.py lines 183–205)

The remote `Stop` and the HTTP-server shutdown each sit in their own
`try`/`except Exception: pass`, so their failure (modelled by the oracle
booleans) is swallowed; afterwards every field is cleared
unconditionally. -/

inductive StopEvent where
  | remoteStop
  | httpShutdown
deriving DecidableEq, Repr

/-- `try: act() except Exception: pass` — the action's failure never
escapes. -/
def py_try_pass (act : Except String Unit) : Except String Unit :=
  match act with
  | .ok _ => .ok ()
  | .error _ => .ok ()

def controller_stop_call (fails : Bool) : Except String Unit :=
  if fails then .error "DLNA error" else .ok ()

def httpd_shutdown_call (fails : Bool) : Except String Unit :=
  if fails then .error "OSError" else .ok ()

/-- `PlaybackSession.stop`: best-effort remote stop (only when a controller
exists), best-effort server shutdown (only when a server exists), then clear
every field.  Returns the externally visible events and the final state, or
an error if an exception were to escape. -/
def session_stop (s : PlaybackState) (remoteFails shutdownFails : Bool) :
    Except String (List StopEvent × PlaybackState) := do
  let evs1 ←
    if s.controllerPresent then do
      let _ ← py_try_pass (controller_stop_call remoteFails)
      pure [StopEvent.remoteStop]
    else pure []
  let evs2 ←
    if s.httpdPresent then do
      let _ ← py_try_pass (httpd_shutdown_call shutdownFails)
      pure [StopEvent.httpShutdown]
    else pure []
  pure (evs1 ++ evs2, idleState)

/-- C9: `stop()` never raises — even when the remote `Stop` invocation and
the HTTP-server shutdown both fail — and always ends in the fully cleared
`Idle` state; on an already-idle session it performs no remote or server call
at all and leaves the state unchanged, so it is idempotent. -/
theorem c9_stop_idempotent_total (s : PlaybackState) (remoteFails shutdownFails : Bool) :
    (∃ evs, session_stop s remoteFails shutdownFails = Except.ok (evs, idleState)) ∧
    session_stop idleState remoteFails shutdownFails = Except.ok ([], idleState) := by
  constructor
  · refine ⟨(if s.controllerPresent then [StopEvent.remoteStop] else []) ++
      (if s.httpdPresent then [StopEvent.httpShutdown] else []), ?_⟩
    cases hc : s.controllerPresent <;> cases hh : s.httpdPresent <;>
      cases remoteFails <;> cases shutdownFails <;>
      simp [session_stop, py_try_pass, controller_stop_call, httpd_shutdown_call, hc, hh,
        Bind.bind, Except.bind, Pure.pure, Except.pure]
  · cases remoteFails <;> cases shutdownFails <;>
      simp [session_stop, idleState, py_try_pass,
        Bind.bind, Except.bind, Pure.pure, Except.pure]

/-! ### `serve_directory` (http_server.py lines 209–216) and its cwd effect

`serve_directory` calls `os.chdir(directory)` — a process-wide side effect —
before binding the listening socket; nothing in the session lifecycle ever
changes the working directory back (in particular `PlaybackSession.stop`
performs no `chdir`). -/

structure ProcState where
  cwd : String
deriving DecidableEq, Repr

/-- `serve_directory(directory, port)`: `os.chdir(directory)`, then bind; the
bound port is `port`, or the OS-assigned ephemeral port when `port = 0`.
Returns the updated process state and the server handle's bound port. -/
def serve_directory (_ps : ProcState) (directory : String) (port osAssignedPort : Nat) :
    ProcState × Nat :=
  let psAfterChdir : ProcState := { cwd := directory }
  (psAfterChdir, if port = 0 then osAssignedPort else port)

/-- `PlaybackSession.stop` threaded through the process state: its body
(gui.py lines 183–205) contains no `os.chdir`, so the working directory is
untouched. -/
def session_stop_proc (ps : ProcState) (s : PlaybackState)
    (remoteFails shutdownFails : Bool) :
    ProcState × Except String (List StopEvent × PlaybackState) :=
  (ps, session_stop s remoteFails shutdownFails)

/-- C10: `serve_directory` rewrites the whole process's working directory to
the served directory, independent of what it was before; stopping the session
does not restore it; and a later `serve_directory` leaves the process rooted
at the *last* served directory.  Every relative path in the process therefore
resolves against the last served directory after any call. -/
theorem c10_serve_directory_chdir (ps : ProcState) (dir : String)
    (port osAssignedPort : Nat) (s : PlaybackState) (remoteFails shutdownFails : Bool)
    (dir2 : String) (port2 osAssignedPort2 : Nat) :
    (serve_directory ps dir port osAssignedPort).1.cwd = dir ∧
    (session_stop_proc (serve_directory ps dir port osAssignedPort).1 s
      remoteFails shutdownFails).1.cwd = dir ∧
    (serve_directory
      (session_stop_proc (serve_directory ps dir port osAssignedPort).1 s
        remoteFails shutdownFails).1 dir2 port2 osAssignedPort2).1.cwd = dir2 := by
  exact ⟨rfl, rfl, rfl⟩

end SymMediaStreamer
